import Mathlib

/-!
Verification of the CosyVoice2-API core against its source:
the voice store (`app/core/voice_cache.py`), the voice registry
(`app/core/voice_manager.py`, `app/utils/audio.py`), the synthesis
invocation adapter (`app/core/synthesis_engine.py`) and the two async
task managers (`app/core/async_synthesis.py`,
`app/core/async_synthesis_manager.py`, `app/api/v1/tasks.py`).

Python-level conventions of the embedding:
* machine floats that only carry report values (durations, progress)
  are modelled as rationals;
* Python dicts that preserve insertion order are modelled as
  association lists;
* exceptions are modelled by an error type listing the exception
  classes of `app/core/exceptions.py` together with the builtin
  exceptions the code actually raises, and fallible operations return
  `Except`;
* the filesystem is modelled explicitly where a claim is about files
  on disk.
-/

namespace CosyVoice

/-- Exception kinds: the classes declared in `app/core/exceptions.py`
plus the Python builtins (`ValueError`, `RuntimeError`, `OSError`)
that the code raises. -/
inductive PyError where
  | valueError (msg : String)
  | runtimeError (msg : String)
  | osError (msg : String)
  | voiceNotFoundError (msg : String)
  | voiceAlreadyExistsError (msg : String)
  | audioProcessingError (msg : String)
  | modelNotReadyError (msg : String)
  | synthesisError (msg : String)
  deriving DecidableEq, Repr

/-- True exactly on the `VoiceAlreadyExistsError` exception class. -/
def PyError.isVoiceAlreadyExists : PyError → Bool
  | .voiceAlreadyExistsError _ => true
  | _ => false

/-- True exactly on the `AudioProcessingError` exception class. -/
def PyError.isAudioProcessing : PyError → Bool
  | .audioProcessingError _ => true
  | _ => false

/-- `VoiceType` enumeration from `app/models/voice.py`. -/
inductive VoiceType where
  | sft
  | zero_shot
  | cross_lingual
  | instruct
  deriving DecidableEq, Repr

/-- `AudioFormat` enumeration from `app/models/voice.py`. -/
inductive AudioFormat where
  | wav
  | mp3
  | flac
  deriving DecidableEq, Repr

/-- `VoiceCreate` model from `app/models/voice.py`. -/
structure VoiceCreate where
  voice_id : String
  name : String
  description : Option String := none
  voice_type : VoiceType
  language : Option String := none
  prompt_text : Option String := none
  audio_format : AudioFormat := .wav
  deriving DecidableEq, Repr

/-- `VoiceInDB` model from `app/models/voice.py`.  Timestamps are
abstract ticks; `model_data` is the opaque conditioning blob. -/
structure VoiceInDB where
  voice_id : String
  name : String
  description : Option String := none
  voice_type : VoiceType
  language : Option String := none
  created_at : Nat
  updated_at : Nat
  audio_file_path : Option String := none
  prompt_text : Option String := none
  audio_format : AudioFormat := .wav
  file_size : Option Nat := none
  duration : Option ℚ := none
  sample_rate : Option Nat := none
  model_data : Option String := none
  is_active : Bool := true
  deriving DecidableEq, Repr

namespace voice_cache

/-- In-memory state of `VoiceCache`: the `self.voices` dict
(`voice_id -> VoiceInDB`, insertion ordered). -/
structure VoiceCache where
  voices : List (String × VoiceInDB)
  deriving DecidableEq, Repr

/-- State of the temp file `db.tmp` used by `_save_to_disk`. -/
inductive TempState where
  | absent
  | partialWrite
  | full (data : List (String × VoiceInDB))
  deriving DecidableEq, Repr

/-- On-disk state relevant to the store: the backing file (`none` if it
does not exist, otherwise the parsed record map, since the JSON
serialization is faithful) and the temp file. -/
structure DiskState where
  main : Option (List (String × VoiceInDB))
  temp : TempState
  deriving DecidableEq, Repr

/-- One run of `VoiceCache._save_to_disk` (voice_cache.py lines 71-94),
stopped after `crashPoint` primitive steps.  The code serializes the
map, writes it to `db.tmp`, then calls `temp_file.replace(db_file)` -
an atomic rename.
* `crashPoint = 0`: the failure happens before the temp file is
  created (serialization error);
* `crashPoint = 1`: the failure or crash happens midway through
  writing the temp file;
* `crashPoint = 2`: a crash happens after the temp file is fully
  written but before the rename;
* `crashPoint >= 3`: the run completes and the rename installs the
  new contents. -/
def persistRun (voices : List (String × VoiceInDB)) (crashPoint : Nat)
    (d : DiskState) : DiskState :=
  if crashPoint = 0 then d
  else if crashPoint = 1 then { d with temp := .partialWrite }
  else if crashPoint = 2 then { d with temp := .full voices }
  else { main := some voices, temp := .absent }

/-- `VoiceCache._save_to_disk` as seen by its caller: on an incomplete
run the exception propagates (the method logs and re-raises), on a
complete run it returns normally.  The second component is the disk
state left behind. -/
def save_to_disk (voices : List (String × VoiceInDB)) (crashPoint : Nat)
    (d : DiskState) : Except PyError Unit × DiskState :=
  (if 3 ≤ crashPoint then .ok ()
   else .error (.osError "Failed to save voice cache"),
   persistRun voices crashPoint d)

/-- Message of the `ValueError` raised by `VoiceCache.add_voice` on a
duplicate id (voice_cache.py line 104). -/
def dupMsg (voice_id : String) : String :=
  "Voice with ID \x27" ++ voice_id ++ "\x27 already exists"

/-- `VoiceCache.add_voice` (voice_cache.py lines 96-120).  Checks the
id, builds the record, inserts it into the in-memory dict, then awaits
`_save_to_disk` (whose run is parameterized by `crashPoint`; a failed
persist propagates after the in-memory insert, exactly as in the
code). -/
def add_voice (c : VoiceCache) (d : DiskState) (vc : VoiceCreate)
    (audio_file_path : String) (model_data : Option String)
    (file_size : Option Nat) (duration : Option ℚ)
    (sample_rate : Option Nat) (now : Nat) (crashPoint : Nat) :
    Except PyError VoiceInDB × VoiceCache × DiskState :=
  if (c.voices.lookup vc.voice_id).isSome then
    (.error (.valueError (dupMsg vc.voice_id)), c, d)
  else
    let v : VoiceInDB :=
      { voice_id := vc.voice_id, name := vc.name,
        description := vc.description, voice_type := vc.voice_type,
        language := vc.language, created_at := now, updated_at := now,
        audio_file_path := some audio_file_path,
        prompt_text := vc.prompt_text, audio_format := vc.audio_format,
        file_size := file_size, duration := duration,
        sample_rate := sample_rate, model_data := model_data }
    let voices := c.voices ++ [(vc.voice_id, v)]
    match save_to_disk voices crashPoint d with
    | (.ok _, d) => (.ok v, ⟨voices⟩, d)
    | (.error e, d) => (.error e, ⟨voices⟩, d)

/-- Truthiness of an optional string in Python: `if language:` is
false for `None` and for the empty string. -/
def truthy : Option String → Bool
  | none => false
  | some s => s ≠ ""

/-- Index normalization of a Python slice bound for a list of length
`len`: negative indices count from the end, then the bound is clamped
to `[0, len]`. -/
def pySliceIdx (len : Nat) (i : Int) : Nat :=
  if i < 0 then min ((len : Int) + i).toNat len else min i.toNat len

/-- Python list slice `xs[a:b]`. -/
def pySlice (xs : List α) (a b : Int) : List α :=
  (xs.drop (pySliceIdx xs.length a)).take
    (pySliceIdx xs.length b - pySliceIdx xs.length a)

/-- The filter step of `VoiceCache.list_voices` (voice_cache.py lines
132-136): `if voice_type:` then filter by type, `if language:` then
filter by language. -/
def filteredVoices (c : VoiceCache) (voice_type : Option VoiceType)
    (language : Option String) : List VoiceInDB :=
  let voices := c.voices.map (·.2)
  let voices := match voice_type with
    | some t => voices.filter (fun v => v.voice_type = t)
    | none => voices
  if truthy language then
    voices.filter (fun v => v.language = language)
  else voices

/-- `VoiceCache.list_voices` (voice_cache.py lines 126-145): filter,
record the total, then slice `voices[start:end]` with
`start = (page - 1) * page_size`. -/
def list_voices (c : VoiceCache) (voice_type : Option VoiceType)
    (language : Option String) (page : Nat) (page_size : Nat) :
    List VoiceInDB × Nat :=
  let voices := filteredVoices c voice_type language
  let total := voices.length
  let start : Int := ((page : Int) - 1) * (page_size : Int)
  (pySlice voices start (start + (page_size : Int)), total)

/-- `VoiceStats` pydantic model, `app/models/voice.py` lines 61-67.
These are the only fields the model declares. -/
structure VoiceStats where
  total_voices : Nat := 0
  active_voices : Nat := 0
  voice_types : List (VoiceType × Nat) := []
  languages : List (String × Nat) := []
  total_duration : ℚ := 0
  total_size : Nat := 0
  deriving DecidableEq, Repr

/-- The `by_type` dict computed by `VoiceCache.get_stats`
(voice_cache.py lines 187-190): one entry per enum member, in
declaration order. -/
def statsByType (c : VoiceCache) : List (VoiceType × Nat) :=
  [VoiceType.sft, VoiceType.zero_shot,
   VoiceType.cross_lingual, VoiceType.instruct].map
    (fun t => (t, (c.voices.filter (fun p => p.2.voice_type = t)).length))

/-- `by_language[lang] = by_language.get(lang, 0) + 1` on an
insertion-ordered dict. -/
def bumpCount (acc : List (String × Nat)) (l : String) :
    List (String × Nat) :=
  if (acc.lookup l).isSome then
    acc.map (fun p => if p.1 = l then (p.1, p.2 + 1) else p)
  else acc ++ [(l, 1)]

/-- The `by_language` dict computed by `VoiceCache.get_stats`
(voice_cache.py lines 192-196); `if voice.language:` skips `None` and
the empty string. -/
def statsByLanguage (c : VoiceCache) : List (String × Nat) :=
  c.voices.foldl
    (fun acc p =>
      if truthy p.2.language then bumpCount acc (p.2.language.getD "")
      else acc) []

/-- `total_storage_size = sum(v.file_size or 0 for v in voices)`
(voice_cache.py line 199). -/
def statsTotalStorage (c : VoiceCache) : Nat :=
  (c.voices.map (fun p => p.2.file_size.getD 0)).sum

/-- `durations = [v.duration for v in voices if v.duration is not
None]` (voice_cache.py line 202). -/
def statsDurations (c : VoiceCache) : List ℚ :=
  c.voices.filterMap (fun p => p.2.duration)

/-- `average_duration = sum(durations) / len(durations) if durations
else None` (voice_cache.py line 203). -/
def statsAverageDuration (c : VoiceCache) : Option ℚ :=
  let ds := statsDurations c
  if ds.isEmpty then none else some (ds.sum / (ds.length : ℚ))

/-- `VoiceCache.get_stats` (voice_cache.py lines 182-211).  The method
computes `by_type`, `by_language`, `total_storage_size` and
`average_duration` and then calls
`VoiceStats(total_voices=..., by_type=..., by_language=...,
total_storage_size=..., average_duration=...)`.  Of these keyword
arguments only `total_voices` is a declared field of `VoiceStats`
(app/models/voice.py lines 61-67); pydantic ignores unknown keyword
arguments by default, so the remaining four are silently dropped and
every other field keeps its declared default. -/
def get_stats (c : VoiceCache) : VoiceStats :=
  { total_voices := c.voices.length }

end voice_cache

namespace voice_manager

/-- A path in the parts of the filesystem `VoiceManager.add_voice`
touches: the temp-file directory and the voice-audio directory.  The
two directories are distinct, which the tagging makes explicit. -/
inductive FsPath where
  | temp (name : String)
  | voiceAudio (name : String)
  deriving DecidableEq, Repr

/-- File extension of an audio format. -/
def AudioFormat.ext : AudioFormat → String
  | .wav => "wav"
  | .mp3 => "mp3"
  | .flac => "flac"

/-- Temp file written by `file_manager.save_temp_file` for the upload
(voice_manager.py lines 148-151). -/
def temp_path (vc : VoiceCreate) : FsPath :=
  .temp (vc.voice_id ++ "." ++ AudioFormat.ext vc.audio_format)

/-- Target audio path `file_manager.get_voice_audio_path`
(voice_manager.py lines 164-167). -/
def target_path (vc : VoiceCreate) : FsPath :=
  .voiceAudio (vc.voice_id ++ "." ++ AudioFormat.ext vc.audio_format)

/-- Probed audio metadata (duration, sample rate, channels). -/
structure AudioInfo where
  duration : ℚ
  sample_rate : Nat
  channels : Nat
  deriving DecidableEq, Repr

/-- Environment of one `VoiceManager.add_voice` call: the settings, the
cache lookup, and the outcome of each external step.  Conditioning-data
extraction has no failure flag because
`_generate_voice_model_data` catches every exception and returns
`None` (voice_manager.py lines 219-247). -/
structure AddVoiceEnv where
  initialized : Bool := true
  voice_exists : Bool := false
  temp_save_ok : Bool := true
  file_size : Nat
  audio_info : Option AudioInfo
  convert_ok : Bool := true
  copy_ok : Bool := true
  model_data : Option String := none
  store_write_ok : Bool := true
  max_file_size : Nat
  max_audio_duration : ℚ

/-- The message for a too-short upload (audio.py line 53). -/
def tooShortMsg : String :=
  "Audio duration is too short (minimum 0.5 seconds required)"

/-- `AudioProcessor.validate_audio_file` (audio.py lines 25-58) on the
just-saved temp file, which exists.  Returns `(is_valid,
error_message)`.  Numeric interpolation in the size/duration messages
is rendered with `toString`; Python formats the same integers
identically and formats the durations with two decimals, a rendering
detail no claim depends on. -/
def validate_audio_file (env : AddVoiceEnv) : Bool × Option String :=
  if env.max_file_size < env.file_size then
    (false, some ("File size (" ++ toString env.file_size ++
      " bytes) exceeds maximum allowed size (" ++
      toString env.max_file_size ++ " bytes)"))
  else
    match env.audio_info with
    | none => (false, some "Invalid audio file format or corrupted file")
    | some info =>
      if env.max_audio_duration < info.duration then
        (false, some ("Audio duration (" ++ toString info.duration ++
          "s) exceeds maximum allowed duration (" ++
          toString env.max_audio_duration ++ "s)"))
      else if info.duration < 1/2 then (false, some tooShortMsg)
      else (true, none)

/-- Tail of `VoiceManager.add_voice` after the audio reached
`target_path` (voice_manager.py lines 186-213): the temp file is
deleted, conditioning data is taken as-is (extraction cannot raise),
and `voice_cache.add_voice` persists the record; if that persist
fails the exception is logged and re-raised (line 217) with no file
cleanup. -/
def finishAdd (env : AddVoiceEnv) (vc : VoiceCreate)
    (files : List FsPath) : Except PyError Unit × List FsPath :=
  let files := (files ++ [target_path vc]).erase (temp_path vc)
  if env.store_write_ok = false then
    (.error (.osError "Failed to save voice cache"), files)
  else (.ok (), files)

/-- `VoiceManager.add_voice` (voice_manager.py lines 137-217) as a
function of the call environment and the set of files on disk.  A
conversion or copy failure is reported by the helper as `False`
without leaving the target file behind, and the code then deletes the
temp file and raises. -/
def add_voice (env : AddVoiceEnv) (vc : VoiceCreate)
    (files : List FsPath) : Except PyError Unit × List FsPath :=
  if env.initialized = false then
    (.error (.runtimeError "Voice manager not initialized"), files)
  else if env.voice_exists then
    (.error (.valueError (voice_cache.dupMsg vc.voice_id)), files)
  else if env.temp_save_ok = false then
    (.error (.osError "Failed to save temp file"), files)
  else
    let files := files ++ [temp_path vc]
    match validate_audio_file env with
    | (false, msg) =>
      (.error (.valueError ("Invalid audio file: " ++ msg.getD "None")),
       files.erase (temp_path vc))
    | (true, _) =>
      if vc.audio_format ≠ .wav then
        if env.convert_ok = false then
          (.error (.valueError "Failed to convert audio format"),
           files.erase (temp_path vc))
        else finishAdd env vc files
      else
        if env.copy_ok = false then
          (.error (.valueError "Failed to save audio file"),
           files.erase (temp_path vc))
        else finishAdd env vc files

end voice_manager

/-- Task status enumeration, identical in `app/core/async_synthesis.py`
lines 21-26 and `app/core/async_synthesis_manager.py` lines 19-23. -/
inductive TaskStatus where
  | pending
  | processing
  | completed
  | failed
  deriving DecidableEq, Repr

namespace async_synthesis

/-- `SynthesisResponse` payload of a completed task (only the fields a
task record carries). -/
structure SynthesisResponse where
  audio_url : String
  file_path : String
  duration : Option ℚ := none
  synthesis_time : ℚ := 0
  deriving DecidableEq, Repr

/-- `SynthesisTask` dataclass (async_synthesis.py lines 29-39). -/
structure SynthesisTask where
  task_id : String
  status : TaskStatus
  created_at : Nat
  started_at : Option Nat := none
  completed_at : Option Nat := none
  result : Option SynthesisResponse := none
  error : Option String := none
  progress : ℚ := 0
  deriving DecidableEq, Repr

/-- The error message `cancel_task` stores (async_synthesis.py line
149). -/
def cancelMsg : String := "Task cancelled by user"

/-- The record `submit_*_task` inserts before scheduling the
background coroutine (async_synthesis.py lines 72-77). -/
def submitTask (id : String) (now : Nat) : SynthesisTask :=
  { task_id := id, status := .pending, created_at := now }

/-- Effect of `cancel_task` on one task (async_synthesis.py lines
144-152): only a `PENDING` task is touched. -/
def cancelStep (now : Nat) (t : SynthesisTask) : SynthesisTask :=
  if t.status = .pending then
    { t with status := .failed, error := some cancelMsg,
             completed_at := some now }
  else t

/-- Replace the entry for `task_id`. -/
def updateTask (tasks : List (String × SynthesisTask)) (task_id : String)
    (t : SynthesisTask) : List (String × SynthesisTask) :=
  tasks.map (fun p => if p.1 = task_id then (p.1, t) else p)

/-- `AsyncSynthesisManager.cancel_task` (async_synthesis.py lines
144-152): returns `True` and marks the task failed-cancelled exactly
when the task exists and is still `PENDING`; otherwise returns
`False` and changes nothing. -/
def cancel_task (tasks : List (String × SynthesisTask))
    (task_id : String) (now : Nat) :
    Bool × List (String × SynthesisTask) :=
  match tasks.lookup task_id with
  | none => (false, tasks)
  | some t =>
    if t.status = .pending then
      (true, updateTask tasks task_id (cancelStep now t))
    else (false, tasks)

/-- The atomic mutations one task can undergo: a user cancel
(`cancel_task`), the unguarded start of its background execution
(`_process_*_task` lines 164-166), and the terminal update of that
execution (lines 171-174 on success, 179-181 on exception). -/
inductive TaskEvent where
  | cancel (now : Nat)
  | beginProc (now : Nat)
  | finishOk (r : SynthesisResponse) (now : Nat)
  | finishErr (msg : String) (now : Nat)
  deriving DecidableEq, Repr

/-- Apply one event exactly as the code mutates the task.  Note that
`beginProc` does not inspect the current status: `_process_*_task`
sets `PROCESSING` unconditionally. -/
def step : TaskEvent → SynthesisTask → SynthesisTask
  | .cancel now, t => cancelStep now t
  | .beginProc now, t =>
      { t with status := .processing, started_at := some now,
               progress := 1/10 }
  | .finishOk r now, t =>
      { t with result := some r, status := .completed, progress := 1,
               completed_at := some now }
  | .finishErr m now, t =>
      { t with status := .failed, error := some m,
               completed_at := some now }

/-- Run a sequence of events from a task state. -/
def run (t : SynthesisTask) (es : List TaskEvent) : SynthesisTask :=
  es.foldl (fun s e => step e s) t

/-- Events contributed by the background execution (as opposed to user
cancels). -/
def isExec : TaskEvent → Bool
  | .cancel _ => false
  | _ => true

/-- Recognizer for the begin-processing event. -/
def isBeginProc : TaskEvent → Bool
  | .beginProc _ => true
  | _ => false

/-- Recognizer for the two terminal events. -/
def isFinish : TaskEvent → Bool
  | .finishOk _ _ => true
  | .finishErr _ _ => true
  | _ => false

/-- Admissible histories of one submitted task: the single background
coroutine performs begin-processing then exactly one terminal update,
in that order, and user cancels may interleave anywhere. -/
def validTrace (es : List TaskEvent) : Bool :=
  match es.filter isExec with
  | [e₁, e₂] => isBeginProc e₁ && isFinish e₂
  | _ => false

/-- Phase invariant of one task under admissible histories, indexed by
the exec events consumed so far (a proof device over the embedded
model).  Before the background execution starts the task is pending,
or failed-with-cancel-message if a cancel landed first; while
executing it is processing with no result; after the terminal event it
is completed with the result, or failed with the error. -/
def Inv (t : SynthesisTask) : List TaskEvent → Prop
  | [] => t.result = none ∧
      ((t.status = .pending ∧ t.error = none) ∨
       (t.status = .failed ∧ t.error = some cancelMsg))
  | [_] => t.status = .processing ∧ t.result = none
  | [_, e] =>
      (∃ r n, e = .finishOk r n ∧ t.status = .completed ∧
        t.result = some r) ∨
      (∃ m n, e = .finishErr m n ∧ t.status = .failed ∧
        t.error = some m ∧ t.result = none)
  | _ => True

/-- The removal test of the periodic sweep `_cleanup_old_tasks`
(async_synthesis.py line 266): `(current_time - task.created_at) >
self._max_task_age`.  It reads nothing but `created_at`. -/
def isExpired (now max_age : Nat) (t : SynthesisTask) : Bool :=
  max_age < now - t.created_at

/-- One pass of the periodic sweep `_cleanup_old_tasks`
(async_synthesis.py lines 256-278): every expired task is deleted from
the map, whatever its status. -/
def cleanup_old_tasks (now max_age : Nat)
    (tasks : List (String × SynthesisTask)) :
    List (String × SynthesisTask) :=
  tasks.filter (fun p => !isExpired now max_age p.2)

end async_synthesis

namespace async_synthesis_manager

/-- Result of `synthesize_cross_lingual_with_cache` as consumed by
`_process_task_async` (async_synthesis_manager.py lines 204-215). -/
structure SynthResult where
  audio_url : String
  file_path : String
  duration : Option ℚ := none
  synthesis_time : ℚ := 0
  deriving DecidableEq, Repr

/-- `AsyncTask` (async_synthesis_manager.py lines 26-41). -/
structure AsyncTask where
  task_id : String
  status : TaskStatus
  progress : ℚ
  message : String
  audio_url : Option String := none
  file_path : Option String := none
  duration : Option ℚ := none
  synthesis_time : Option ℚ := none
  error_message : Option String := none
  created_at : Nat
  completed_at : Option Nat := none
  deriving DecidableEq, Repr

/-- A freshly created task (async_synthesis_manager.py lines 29-41
and `create_task`). -/
def newTask (id : String) (now : Nat) : AsyncTask :=
  { task_id := id, status := .pending, progress := 0,
    message := "Task created", created_at := now }

/-- The successive task states produced by `_process_task_async`
(async_synthesis_manager.py lines 169-236), each of which is
observable through `get_task_status` polling under the shared lock:
creation, the start of processing (progress 0.1), the synthesis
dispatch (progress 0.3), and the terminal update.  On an exception the
handler at lines 226-231 sets `status = FAILED`, `progress = 0.0`,
`error_message = str(e)`.  (`process_task_background` in
app/api/v1/tasks.py lines 114-123 resets progress to 0.0 on failure
the same way.) -/
def processStates (t0 : AsyncTask) (outcome : Except String SynthResult)
    (now : Nat) : List AsyncTask :=
  let t1 := { t0 with status := TaskStatus.processing, progress := 1/10,
                      message := "Starting synthesis..." }
  let t2 := { t1 with progress := 3/10,
                      message := "Synthesizing audio..." }
  let t3 := match outcome with
    | .ok r =>
      { t2 with status := TaskStatus.completed, progress := 1,
                message := "Synthesis completed successfully",
                audio_url := some r.audio_url,
                file_path := some r.file_path,
                duration := r.duration,
                synthesis_time := some r.synthesis_time,
                completed_at := some now }
    | .error e =>
      { t2 with status := TaskStatus.failed, progress := 0,
                message := "Synthesis failed",
                error_message := some e,
                completed_at := some now }
  [t0, t1, t2, t3]

end async_synthesis_manager

namespace synthesis_engine

/-- One item yielded by the model generator: `none` when the output
dict has no `tts_speech` key, otherwise the flattened sample list of
the chunk. -/
abbrev ModelOutput := Option (List Int)

/-- The chunk-consumption loop of `_synthesize_cross_lingual_cached`
(synthesis_engine.py lines 517-534): each present chunk is appended to
the accumulated sample data and counted, then the loop breaks if the
chunk count reached `max_chunks` or the sample total exceeded
`max_samples`.  Returns the accumulated data and the chunk count. -/
def collectLoop (max_chunks max_samples : Nat) :
    List ModelOutput → List Int → Nat → List Int × Nat
  | [], acc, cnt => (acc, cnt)
  | none :: rest, acc, cnt => collectLoop max_chunks max_samples rest acc cnt
  | some c :: rest, acc, cnt =>
    let acc := acc ++ c
    let cnt := cnt + 1
    if max_chunks ≤ cnt then (acc, cnt)
    else if max_samples < acc.length then (acc, cnt)
    else collectLoop max_chunks max_samples rest acc cnt

/-- `max_chunks = 100 if is_japanese else 200` (synthesis_engine.py
line 511). -/
def maxChunksFor (is_japanese : Bool) : Nat :=
  if is_japanese then 100 else 200

/-- `max_samples = int(sample_rate * (len(text) * 0.15 / speed) * 5)`
(synthesis_engine.py lines 512-513), with the positive float truncated
by `int`. -/
def maxSamplesFor (sample_rate : Nat) (text_len : Nat) (speed : ℚ) : Nat :=
  (⌊(sample_rate : ℚ) * ((text_len : ℚ) * (3/20) / speed) * 5⌋).toNat

/-- Tail of `_synthesize_cross_lingual_cached` (synthesis_engine.py
lines 517-545): run the consumption loop, raise
`SynthesisError("No audio generated")` when the accumulated data is
empty, otherwise write the concatenated data to the output path. -/
def synthesize_cross_lingual_cached (max_chunks max_samples : Nat)
    (outputs : List ModelOutput) (output_path : String) :
    Except PyError (String × List Int) :=
  let r := collectLoop max_chunks max_samples outputs [] 0
  if r.1.isEmpty then .error (.synthesisError "No audio generated")
  else .ok (output_path, r.1)

end synthesis_engine

section ConcreteInputs

open voice_cache voice_manager async_synthesis async_synthesis_manager

/-- A concrete stored voice record. -/
def vRec : VoiceInDB :=
  { voice_id := "v1", name := "Voice One", voice_type := .zero_shot,
    created_at := 0, updated_at := 0, prompt_text := some "hello" }

/-- A store already holding `vRec` under id `v1`. -/
def cacheOne : VoiceCache := ⟨[("v1", vRec)]⟩

/-- The matching on-disk state. -/
def diskOne : DiskState := { main := some [("v1", vRec)], temp := .absent }

/-- A creation request reusing the taken id `v1`. -/
def vcDup : VoiceCreate :=
  { voice_id := "v1", name := "Voice Two", voice_type := .zero_shot,
    prompt_text := some "hi" }

/-- A voice with language, size and duration recorded, for the stats
claims. -/
def vStats : VoiceInDB :=
  { voice_id := "en1", name := "EN", voice_type := .zero_shot,
    language := some "en", created_at := 0, updated_at := 0,
    file_size := some 1024, duration := some (5/2) }

/-- A store holding only `vStats`. -/
def cacheStats : VoiceCache := ⟨[("en1", vStats)]⟩

/-- A store with three voices for the pagination claim. -/
def cacheThree : VoiceCache :=
  ⟨[("v1", vRec),
    ("en1", vStats),
    ("v3", { vRec with voice_id := "v3", name := "Voice Three" })]⟩

/-- A creation request for the registry rollback claims. -/
def vcNew : VoiceCreate :=
  { voice_id := "shorty", name := "Short", voice_type := .zero_shot,
    prompt_text := some "hi" }

/-- Environment of an `add_voice` call whose upload probes at 0.2
seconds: below the 0.5-second minimum. -/
def envTooShort : AddVoiceEnv :=
  { file_size := 1000,
    audio_info := some { duration := 1/5, sample_rate := 16000, channels := 1 },
    max_file_size := 10485760, max_audio_duration := 30 }

/-- Environment of an `add_voice` call that passes every audio step
but whose store persist fails. -/
def envStoreFail : AddVoiceEnv :=
  { file_size := 1000,
    audio_info := some { duration := 3, sample_rate := 16000, channels := 1 },
    max_file_size := 10485760, max_audio_duration := 30,
    store_write_ok := false }

/-- A concrete synthesis result for task traces. -/
def respDemo : async_synthesis.SynthesisResponse :=
  { audio_url := "/api/v1/audio/out.wav", file_path := "outputs/out.wav" }

/-- A submitted (pending) task. -/
def taskDemo : SynthesisTask := submitTask "task_1" 0

/-- A one-entry task map holding the pending `taskDemo`. -/
def tasksDemo : List (String × SynthesisTask) := [("task_1", taskDemo)]

/-- The interleaving in which a user cancel lands between submission
and the start of the already-scheduled background execution. -/
def resurrectionTrace : List TaskEvent :=
  [.cancel 1, .beginProc 2, .finishOk respDemo 3]

/-- A plain successful execution with no cancel. -/
def okTrace : List TaskEvent := [.beginProc 1, .finishOk respDemo 2]

end ConcreteInputs

section StoreTheorems

open voice_cache

/-- C4: for every store content, crash point and prior disk state, an
incomplete `_save_to_disk` run (failure during serialization or temp
write, or a crash before the rename) leaves the backing file exactly
as it was and surfaces the error; a complete run installs the full
serialized map; and in all cases the backing file holds either the old
contents or the complete new serialization, never anything
half-written. -/
theorem persist_atomic (voices : List (String × VoiceInDB))
    (crashPoint : Nat) (d : DiskState) :
    (crashPoint < 3 →
      (save_to_disk voices crashPoint d).2.main = d.main ∧
      (save_to_disk voices crashPoint d).1 =
        .error (.osError "Failed to save voice cache"))
  ∧ (3 ≤ crashPoint →
      (save_to_disk voices crashPoint d).2 =
        { main := some voices, temp := .absent })
  ∧ ((save_to_disk voices crashPoint d).2.main = d.main ∨
     (save_to_disk voices crashPoint d).2.main = some voices) := by
  rcases crashPoint with _ | _ | _ | n
  · exact ⟨fun _ => ⟨rfl, rfl⟩, fun h => absurd h (by omega), Or.inl rfl⟩
  · exact ⟨fun _ => ⟨rfl, rfl⟩, fun h => absurd h (by omega), Or.inl rfl⟩
  · exact ⟨fun _ => ⟨rfl, rfl⟩, fun h => absurd h (by omega), Or.inl rfl⟩
  · have e : save_to_disk voices (n + 3) d =
        (.ok (), { main := some voices, temp := .absent }) := by
      unfold save_to_disk persistRun
      rw [if_pos (by omega : 3 ≤ n + 3), if_neg (by omega), if_neg (by omega),
        if_neg (by omega)]
    exact ⟨fun h => absurd h (by omega), fun _ => by rw [e],
      Or.inr (by rw [e])⟩

/-- Witness for C4 at a concrete crash between temp write and
rename. -/
theorem persist_atomic_witness :
    (save_to_disk [] 2 ⟨none, .absent⟩).2.main = none ∧
    (save_to_disk [] 2 ⟨none, .absent⟩).1 =
      .error (.osError "Failed to save voice cache") :=
  (persist_atomic [] 2 ⟨none, .absent⟩).1 (by decide)

/-- C3 counterexample: a second `add_voice` on the taken id `v1` fails
with the builtin `ValueError`, not with the `VoiceAlreadyExistsError`
exception kind (which the codebase defines and maps to HTTP 409 but
never raises), while the store and disk are indeed unchanged. -/
theorem add_duplicate_error_kind_counterexample :
    (add_voice cacheOne diskOne vcDup "cache/v1.wav" none none none none 5 3).1 =
      .error (.valueError (dupMsg "v1"))
  ∧ PyError.isVoiceAlreadyExists (.valueError (dupMsg "v1")) = false
  ∧ (add_voice cacheOne diskOne vcDup "cache/v1.wav" none none none none 5 3).2.1 = cacheOne
  ∧ (add_voice cacheOne diskOne vcDup "cache/v1.wav" none none none none 5 3).2.2 = diskOne :=
  ⟨rfl, rfl, rfl, rfl⟩

/-- C3 amended: a second `add_voice` with a `voice_id` already present
fails with `ValueError` (message: already exists) and leaves the store
unchanged: the in-memory record list and the on-disk state are exactly
as before the failed call, whatever the persist crash behavior would
have been. -/
theorem add_duplicate_rejected (c : VoiceCache) (d : DiskState)
    (vc : VoiceCreate) (path : String) (md : Option String)
    (fs : Option Nat) (du : Option ℚ) (sr : Option Nat) (now crash : Nat)
    (h : (c.voices.lookup vc.voice_id).isSome = true) :
    add_voice c d vc path md fs du sr now crash =
      (.error (.valueError (dupMsg vc.voice_id)), c, d) := by
  unfold add_voice
  simp [h]

/-- Witness for C3 amended at the concrete duplicate call. -/
theorem add_duplicate_rejected_witness :
    add_voice cacheOne diskOne vcDup "p.wav" none none none none 7 0 =
      (.error (.valueError (dupMsg "v1")), cacheOne, diskOne) :=
  add_duplicate_rejected cacheOne diskOne vcDup "p.wav" none none none none 7 0 rfl

/-- C9 (code bug): the store computes the per-type counts, per-language
counts, total storage bytes and mean duration, but `get_stats` returns
a `VoiceStats` in which all of them are dropped (the constructor
keyword names do not exist on the model), so the returned statistics
carry empty maps and zeros while the computed aggregates for the same
store are nonempty. -/
theorem get_stats_drops_aggregates :
    get_stats cacheStats = { total_voices := 1 }
  ∧ statsByType cacheStats =
      [(.sft, 0), (.zero_shot, 1), (.cross_lingual, 0), (.instruct, 0)]
  ∧ statsByLanguage cacheStats = [("en", 1)]
  ∧ statsTotalStorage cacheStats = 1024
  ∧ statsAverageDuration cacheStats = some (5/2)
  ∧ (get_stats cacheStats).languages = []
  ∧ (get_stats cacheStats).total_size = 0
  ∧ (get_stats cacheStats).total_duration = 0 := by
  refine ⟨rfl, rfl, rfl, rfl, ?_, rfl, rfl, rfl⟩
  have h : statsDurations cacheStats = [5/2] := rfl
  rw [statsAverageDuration, h]
  norm_num

/-- Slices with natural bounds agree with drop/take. -/
theorem pySlice_nat (xs : List α) (a s : Nat) :
    pySlice xs (a : Int) ((a : Int) + (s : Int)) = (xs.drop a).take s := by
  have h1 : pySliceIdx xs.length (a : Int) = min a xs.length := by
    unfold pySliceIdx
    rw [if_neg (by omega)]
    omega
  have h2 : pySliceIdx xs.length ((a : Int) + (s : Int)) =
      min (a + s) xs.length := by
    unfold pySliceIdx
    rw [if_neg (by omega)]
    omega
  unfold pySlice
  rw [h1, h2]
  rcases le_or_lt xs.length a with h | h
  · rw [min_eq_right h, min_eq_right (by omega : xs.length ≤ a + s)]
    simp [List.drop_eq_nil_of_le h]
  · rw [min_eq_left h.le, List.take_eq_take]
    rw [List.length_drop]
    omega

/-- C10: `list_voices` returns the page slice
`[(page-1)*size, page*size)` of the filtered voice list together with
the total number of matching voices before pagination, and a page past
the end yields the empty list with that same total rather than an
error. -/
theorem list_voices_paginates (c : VoiceCache) (vt : Option VoiceType)
    (lang : Option String) (page page_size : Nat) (hp : 1 ≤ page) :
    list_voices c vt lang page page_size =
      (((filteredVoices c vt lang).drop ((page - 1) * page_size)).take page_size,
       (filteredVoices c vt lang).length)
  ∧ ((filteredVoices c vt lang).length ≤ (page - 1) * page_size →
      (list_voices c vt lang page page_size).1 = []) := by
  have hcast : (((page : Int) - 1) * (page_size : Int)) =
      (((page - 1) * page_size : Nat) : Int) := by
    push_cast [Nat.cast_sub hp]
    ring
  have hmain : list_voices c vt lang page page_size =
      (((filteredVoices c vt lang).drop ((page - 1) * page_size)).take page_size,
       (filteredVoices c vt lang).length) := by
    simp only [list_voices]
    rw [hcast, pySlice_nat (filteredVoices c vt lang) ((page - 1) * page_size)
      page_size]
  refine ⟨hmain, fun h => ?_⟩
  rw [hmain]
  simp [List.drop_eq_nil_of_le h]

/-- Witness for C10: page 2 of size 2 over a three-voice store is the
one-element tail with total 3. -/
theorem list_voices_paginates_witness :
    list_voices cacheThree none none 2 2 =
      (((filteredVoices cacheThree none none).drop 2).take 2,
       (filteredVoices cacheThree none none).length) :=
  (list_voices_paginates cacheThree none none 2 2 (by decide)).1

end StoreTheorems

section TaskTheorems

open async_synthesis async_synthesis_manager

/-- C5: `cancel_task` returns `true` and transitions the task to
failed with the cancellation error (the stored message is literally
`Task cancelled by user`) exactly when the task exists and is still
pending; for a processing, terminal or unknown task it returns
`false` and leaves the task map unchanged. -/
theorem cancel_pending_only (tasks : List (String × SynthesisTask))
    (task_id : String) (now : Nat) :
    ((cancel_task tasks task_id now).1 = true ↔
      ∃ t, tasks.lookup task_id = some t ∧ t.status = .pending)
  ∧ (∀ t, tasks.lookup task_id = some t → t.status = .pending →
      (cancel_task tasks task_id now).2 =
        updateTask tasks task_id
          { t with status := .failed, error := some cancelMsg,
                   completed_at := some now })
  ∧ ((cancel_task tasks task_id now).1 = false →
      (cancel_task tasks task_id now).2 = tasks) := by
  rcases h : tasks.lookup task_id with _ | t
  · refine ⟨by simp [cancel_task, h], ?_, by simp [cancel_task, h]⟩
    intro t ht
    exact absurd ht (by simp)
  · by_cases hp : t.status = .pending
    · refine ⟨by simp [cancel_task, h, hp], ?_, ?_⟩
      · intro t' ht' _
        injection ht' with ht'
        subst ht'
        simp [cancel_task, h, hp, cancelStep]
      · intro hfalse
        simp [cancel_task, h, hp] at hfalse
    · refine ⟨by simp [cancel_task, h, hp], ?_,
        by simp [cancel_task, h, hp]⟩
      intro t' ht' hp'
      injection ht' with ht'
      subst ht'
      exact absurd hp' hp

/-- Witness for C5: cancelling the concrete pending task succeeds. -/
theorem cancel_pending_only_witness :
    (cancel_task tasksDemo "task_1" 5).1 = true :=
  (cancel_pending_only tasksDemo "task_1" 5).1.mpr ⟨taskDemo, rfl, rfl⟩

/-- C8: the periodic sweep keeps exactly the tasks whose age is within
the retention window, and its removal test is independent of the
status of the task, so pending, processing, completed and failed tasks
older than the window are all removed and no younger task is. -/
theorem sweep_by_age (now max_age : Nat)
    (tasks : List (String × SynthesisTask)) :
    (∀ p : String × SynthesisTask,
      p ∈ cleanup_old_tasks now max_age tasks ↔
        p ∈ tasks ∧ now - p.2.created_at ≤ max_age)
  ∧ (∀ (t : SynthesisTask) (s : TaskStatus),
      isExpired now max_age { t with status := s } =
        isExpired now max_age t) := by
  constructor
  · intro p
    simp [cleanup_old_tasks, List.mem_filter, isExpired, Nat.not_lt]
  · intro t s
    rfl

/-- Witness for C8: a young task survives the sweep. -/
theorem sweep_by_age_witness :
    ("task_1", taskDemo) ∈ cleanup_old_tasks 5 10 tasksDemo :=
  ((sweep_by_age 5 10 tasksDemo).1 ("task_1", taskDemo)).mpr
    ⟨by simp [tasksDemo], by simp [taskDemo, submitTask]⟩

/-- C1 counterexample: with the background execution failing at the
synthesis step, the polled progress sequence is 0, 0.1, 0.3 and then
0 again: the failure handler resets progress to 0.0 instead of leaving
it at its last known value 0.3, and the sequence is not
non-decreasing. -/
theorem progress_not_monotone_counterexample :
    ((processStates (newTask "task_a" 0) (.error "CUDA error") 9).map
        (fun t => t.progress) = [0, 1/10, 3/10, 0])
  ∧ ¬ List.Chain' (· ≤ ·)
      ((processStates (newTask "task_a" 0) (.error "CUDA error") 9).map
        (fun t => t.progress))
  ∧ ((processStates (newTask "task_a" 0) (.error "CUDA error") 9).getLast?.map
        (fun t => t.status) = some .failed)
  ∧ ((processStates (newTask "task_a" 0) (.error "CUDA error") 9).getLast?.map
        (fun t => t.progress) = some 0) := by
  refine ⟨rfl, fun hch => ?_, rfl, rfl⟩
  simp only [processStates, newTask, List.map, List.chain'_cons,
    List.chain'_singleton] at hch
  have h3 : ¬((3 : ℚ)/10 ≤ 0) := by norm_num
  exact h3 hch.2.2.1

/-- C1 amended: the polled progress sequence is non-decreasing up to
the terminal transition; on success the task completes with progress
1.0 and the whole sequence is non-decreasing, but on failure the task
transitions to failed with the error recorded and progress reset to
0.0 (a downward reset), not left at its last known value. -/
theorem progress_reset_on_failure (id : String) (created now : Nat)
    (outcome : Except String SynthResult) :
    List.Chain' (· ≤ ·)
      (((processStates (newTask id created) outcome now).dropLast).map
        (fun t => t.progress))
  ∧ (∀ r, outcome = .ok r →
      (processStates (newTask id created) outcome now).getLast?.map
          (fun t => t.progress) = some 1
    ∧ (processStates (newTask id created) outcome now).getLast?.map
          (fun t => t.status) = some .completed
    ∧ List.Chain' (· ≤ ·)
        ((processStates (newTask id created) outcome now).map
          (fun t => t.progress)))
  ∧ (∀ e, outcome = .error e →
      (processStates (newTask id created) outcome now).getLast?.map
          (fun t => t.status) = some .failed
    ∧ (processStates (newTask id created) outcome now).getLast?.map
          (fun t => t.error_message) = some (some e)
    ∧ (processStates (newTask id created) outcome now).getLast?.map
          (fun t => t.progress) = some 0) := by
  cases outcome with
  | ok r =>
    refine ⟨?_, ?_, ?_⟩
    · simp only [processStates, newTask, List.dropLast, List.map,
        List.chain'_cons, List.chain'_singleton]
      norm_num
    · intro r' _
      refine ⟨rfl, rfl, ?_⟩
      simp only [processStates, newTask, List.map, List.chain'_cons,
        List.chain'_singleton]
      norm_num
    · intro e he
      cases he
  | error e =>
    refine ⟨?_, ?_, ?_⟩
    · simp only [processStates, newTask, List.dropLast, List.map,
        List.chain'_cons, List.chain'_singleton]
      norm_num
    · intro r hr
      cases hr
    · intro e' he'
      injection he' with he'
      subst he'
      exact ⟨rfl, rfl, rfl⟩

/-- Witness for C1 amended at a concrete failing execution. -/
theorem progress_reset_on_failure_witness :
    (processStates (newTask "t" 0) (.error "boom") 4).getLast?.map
      (fun t => t.status) = some TaskStatus.failed :=
  ((progress_reset_on_failure "t" 0 4 (.error "boom")).2.2 "boom" rfl).1

end TaskTheorems

section TaskLifecycle

open async_synthesis

/-- Unpack a valid trace into its two exec events. -/
theorem validTrace_spec (es : List TaskEvent) (hv : validTrace es = true) :
    ∃ e₁ e₂, es.filter isExec = [e₁, e₂] ∧ isBeginProc e₁ = true ∧
      isFinish e₂ = true := by
  rcases h : es.filter isExec with _ | ⟨a, _ | ⟨b, _ | ⟨c, rest⟩⟩⟩ <;>
    simp [validTrace, h] at hv
  exact ⟨a, b, rfl, hv.1, hv.2⟩

/-- Running one more event is stepping the final state. -/
theorem run_append (t0 : SynthesisTask) (p : List TaskEvent)
    (e : TaskEvent) : run t0 (p ++ [e]) = step e (run t0 p) := by
  simp [run, List.foldl_append]

/-- A cancel event contributes nothing to the exec skeleton. -/
theorem filter_exec_cancel (p : List TaskEvent) (n : Nat) :
    (p ++ [TaskEvent.cancel n]).filter isExec = p.filter isExec := by
  simp [List.filter_append, isExec]

/-- An exec event extends the exec skeleton. -/
theorem filter_exec_exec (p : List TaskEvent) (e : TaskEvent)
    (he : isExec e = true) :
    (p ++ [e]).filter isExec = p.filter isExec ++ [e] := by
  simp [List.filter_append, he]

/-- A terminal event is not the begin event. -/
theorem isFinish_not_begin {e : TaskEvent} (h : isFinish e = true) :
    isBeginProc e = false := by
  cases e <;> simp_all [isFinish, isBeginProc]

/-- The phase invariant holds at every prefix of a valid trace. -/
theorem inv_run (t0 : SynthesisTask)
    (h0 : t0.status = .pending ∧ t0.result = none ∧ t0.error = none)
    (es : List TaskEvent) (hv : validTrace es = true) :
    ∀ p, p <+: es → Inv (run t0 p) (p.filter isExec) := by
  obtain ⟨e₁, e₂, hes, hb, hf⟩ := validTrace_spec es hv
  intro p
  induction p using List.reverseRecOn with
  | nil =>
    intro _
    exact ⟨h0.2.1, Or.inl ⟨h0.1, h0.2.2⟩⟩
  | append_singleton q e ih =>
    intro hpe
    have hq : q <+: es := (List.prefix_append q [e]).trans hpe
    have hinv := ih hq
    rw [run_append]
    cases e with
    | cancel n =>
      rw [filter_exec_cancel]
      rcases hq2 : q.filter isExec with _ | ⟨x, _ | ⟨y, z⟩⟩ <;>
        rw [hq2] at hinv
      · obtain ⟨hres, hcases⟩ := hinv
        rcases hcases with ⟨hst, herr⟩ | ⟨hst, herr⟩
        · exact ⟨by simp [step, cancelStep, hst, hres],
            Or.inr ⟨by simp [step, cancelStep, hst], by simp [step, cancelStep, hst]⟩⟩
        · have hid : step (TaskEvent.cancel n) (run t0 q) = run t0 q := by
            simp [step, cancelStep, hst]
          rw [hid]
          exact ⟨hres, Or.inr ⟨hst, herr⟩⟩
      · have hid : step (TaskEvent.cancel n) (run t0 q) = run t0 q := by
          simp [step, cancelStep, hinv.1]
        rw [hid]
        exact hinv
      · rcases z with _ | ⟨w, ws⟩
        · rcases hinv with ⟨r, n', he', hst, hres⟩ | ⟨m, n', he', hst, herr, hres⟩
          · have hid : step (TaskEvent.cancel n) (run t0 q) = run t0 q := by
              simp [step, cancelStep, hst]
            rw [hid]
            exact Or.inl ⟨r, n', he', hst, hres⟩
          · have hid : step (TaskEvent.cancel n) (run t0 q) = run t0 q := by
              simp [step, cancelStep, hst]
            rw [hid]
            exact Or.inr ⟨m, n', he', hst, herr, hres⟩
        · trivial
    | beginProc n =>
      rw [filter_exec_exec q (TaskEvent.beginProc n) rfl]
      have hpref : q.filter isExec ++ [TaskEvent.beginProc n] <+: [e₁, e₂] := by
        have h1 := hpe.filter isExec
        rw [hes, filter_exec_exec q (TaskEvent.beginProc n) rfl] at h1
        exact h1
      rcases hq2 : q.filter isExec with _ | ⟨x, _ | ⟨y, ys⟩⟩ <;>
        rw [hq2] at hinv hpref
      · exact ⟨rfl, hinv.1⟩
      · obtain ⟨hx, h2⟩ := List.cons_prefix_cons.mp hpref
        obtain ⟨hb2, _⟩ := List.cons_prefix_cons.mp h2
        rw [← hb2] at hf
        simp [isFinish] at hf
      · have hlen := hpref.length_le
        simp at hlen
    | finishOk r n =>
      rw [filter_exec_exec q (TaskEvent.finishOk r n) rfl]
      have hpref : q.filter isExec ++ [TaskEvent.finishOk r n] <+: [e₁, e₂] := by
        have h1 := hpe.filter isExec
        rw [hes, filter_exec_exec q (TaskEvent.finishOk r n) rfl] at h1
        exact h1
      rcases hq2 : q.filter isExec with _ | ⟨x, _ | ⟨y, ys⟩⟩ <;>
        rw [hq2] at hinv hpref
      · obtain ⟨hx, _⟩ := List.cons_prefix_cons.mp hpref
        rw [← hx] at hb
        simp [isBeginProc] at hb
      · exact Or.inl ⟨r, n, rfl, rfl, rfl⟩
      · have hlen := hpref.length_le
        simp at hlen
    | finishErr m n =>
      rw [filter_exec_exec q (TaskEvent.finishErr m n) rfl]
      have hpref : q.filter isExec ++ [TaskEvent.finishErr m n] <+: [e₁, e₂] := by
        have h1 := hpe.filter isExec
        rw [hes, filter_exec_exec q (TaskEvent.finishErr m n) rfl] at h1
        exact h1
      rcases hq2 : q.filter isExec with _ | ⟨x, _ | ⟨y, ys⟩⟩ <;>
        rw [hq2] at hinv hpref
      · obtain ⟨hx, _⟩ := List.cons_prefix_cons.mp hpref
        rw [← hx] at hb
        simp [isBeginProc] at hb
      · exact Or.inr ⟨m, n, rfl, rfl, rfl, hinv.2⟩
      · have hlen := hpref.length_le
        simp at hlen

/-- C2 counterexample: in the admissible interleaving where a user
cancel lands between submission and the start of the already-scheduled
background execution, the task is observed in `failed`, then the
unguarded `_process_*_task` moves it back to `processing`, and it
finally reaches `completed` while still carrying the stale
cancellation error: a transition out of `failed` and a completed task
with `error` present. -/
theorem task_resurrection_counterexample :
    validTrace resurrectionTrace = true
  ∧ (run taskDemo [TaskEvent.cancel 1]).status = .failed
  ∧ (run taskDemo [TaskEvent.cancel 1]).error = some cancelMsg
  ∧ (run taskDemo [TaskEvent.cancel 1, TaskEvent.beginProc 2]).status = .processing
  ∧ (run taskDemo resurrectionTrace).status = .completed
  ∧ (run taskDemo resurrectionTrace).error = some cancelMsg
  ∧ (run taskDemo resurrectionTrace).result = some respDemo :=
  ⟨rfl, rfl, rfl, rfl, rfl, rfl, rfl⟩

/-- C2 amended: along every admissible history of a submitted task,
`completed` implies the result is present and `failed` implies the
error is present and the result absent; no event moves a task out of
`completed`; the only event that moves a task out of `failed` is the
unguarded begin-processing of its background execution (which
resurrects a task cancelled while pending, after which it can complete
with the stale cancellation error still set); and begin-processing
occurs exactly once per task. -/
theorem task_terminal_integrity (t0 : SynthesisTask)
    (h0 : t0.status = .pending ∧ t0.result = none ∧ t0.error = none)
    (es : List TaskEvent) (hv : validTrace es = true) :
    (∀ p, p <+: es → (run t0 p).status = .completed →
      (run t0 p).result.isSome = true)
  ∧ (∀ p, p <+: es → (run t0 p).status = .failed →
      (run t0 p).error.isSome = true ∧ (run t0 p).result = none)
  ∧ (∀ p e, p ++ [e] <+: es → (run t0 p).status = .completed →
      (run t0 (p ++ [e])).status = .completed)
  ∧ (∀ p e, p ++ [e] <+: es → (run t0 p).status = .failed →
      (run t0 (p ++ [e])).status ≠ .failed → isBeginProc e = true)
  ∧ es.countP isBeginProc = 1 := by
  obtain ⟨e₁, e₂, hes, hb, hf⟩ := validTrace_spec es hv
  have hinv := inv_run t0 h0 es hv
  have hlen2 : ∀ p, p <+: es → (p.filter isExec).length ≤ 2 := by
    intro p hp
    have h1 := (hp.filter isExec).length_le
    rw [hes] at h1
    simpa using h1
  refine ⟨?_, ?_, ?_, ?_, ?_⟩
  · intro p hp hc
    have h := hinv p hp
    have hl := hlen2 p hp
    rcases hq2 : p.filter isExec with _ | ⟨x, _ | ⟨y, _ | ⟨z, zs⟩⟩⟩ <;>
      rw [hq2] at h
    · obtain ⟨hres, hcase⟩ := h
      rcases hcase with ⟨hst, _⟩ | ⟨hst, _⟩ <;> rw [hc] at hst <;>
        exact absurd hst (by decide)
    · have hst := h.1
      rw [hc] at hst
      exact absurd hst (by decide)
    · rcases h with ⟨r, n, _, _, hres⟩ | ⟨m, n, _, hst, _, _⟩
      · rw [hres]
        rfl
      · rw [hc] at hst
        exact absurd hst (by decide)
    · rw [hq2] at hl
      simp at hl
  · intro p hp hfail
    have h := hinv p hp
    have hl := hlen2 p hp
    rcases hq2 : p.filter isExec with _ | ⟨x, _ | ⟨y, _ | ⟨z, zs⟩⟩⟩ <;>
      rw [hq2] at h
    · obtain ⟨hres, hcase⟩ := h
      rcases hcase with ⟨hst, _⟩ | ⟨hst, herr⟩
      · rw [hfail] at hst
        exact absurd hst (by decide)
      · rw [herr]
        exact ⟨rfl, hres⟩
    · have hst := h.1
      rw [hfail] at hst
      exact absurd hst (by decide)
    · rcases h with ⟨r, n, _, hst, _⟩ | ⟨m, n, _, _, herr, hres⟩
      · rw [hfail] at hst
        exact absurd hst (by decide)
      · rw [herr, hres]
        exact ⟨rfl, rfl⟩
    · rw [hq2] at hl
      simp at hl
  · intro p e hp hc
    have hq' : p <+: es := (List.prefix_append p [e]).trans hp
    have h := hinv p hq'
    have hl := hlen2 p hq'
    rw [run_append]
    cases e with
    | cancel n =>
      simp [step, cancelStep, hc]
    | beginProc n =>
      exfalso
      have h2 : p.filter isExec ++ [TaskEvent.beginProc n] <+: [e₁, e₂] := by
        have h1 := hp.filter isExec
        rw [hes, filter_exec_exec p (TaskEvent.beginProc n) rfl] at h1
        exact h1
      rcases hq2 : p.filter isExec with _ | ⟨x, _ | ⟨y, _ | ⟨z, zs⟩⟩⟩ <;>
        rw [hq2] at h
      · obtain ⟨_, hcase⟩ := h
        rcases hcase with ⟨hst, _⟩ | ⟨hst, _⟩ <;> rw [hc] at hst <;>
          exact absurd hst (by decide)
      · have hst := h.1
        rw [hc] at hst
        exact absurd hst (by decide)
      · rw [hq2] at h2
        have := h2.length_le
        simp at this
      · rw [hq2] at hl
        simp at hl
    | finishOk r n =>
      exfalso
      have h2 : p.filter isExec ++ [TaskEvent.finishOk r n] <+: [e₁, e₂] := by
        have h1 := hp.filter isExec
        rw [hes, filter_exec_exec p (TaskEvent.finishOk r n) rfl] at h1
        exact h1
      rcases hq2 : p.filter isExec with _ | ⟨x, _ | ⟨y, _ | ⟨z, zs⟩⟩⟩ <;>
        rw [hq2] at h
      · obtain ⟨_, hcase⟩ := h
        rcases hcase with ⟨hst, _⟩ | ⟨hst, _⟩ <;> rw [hc] at hst <;>
          exact absurd hst (by decide)
      · have hst := h.1
        rw [hc] at hst
        exact absurd hst (by decide)
      · rw [hq2] at h2
        have := h2.length_le
        simp at this
      · rw [hq2] at hl
        simp at hl
    | finishErr m n =>
      exfalso
      have h2 : p.filter isExec ++ [TaskEvent.finishErr m n] <+: [e₁, e₂] := by
        have h1 := hp.filter isExec
        rw [hes, filter_exec_exec p (TaskEvent.finishErr m n) rfl] at h1
        exact h1
      rcases hq2 : p.filter isExec with _ | ⟨x, _ | ⟨y, _ | ⟨z, zs⟩⟩⟩ <;>
        rw [hq2] at h
      · obtain ⟨_, hcase⟩ := h
        rcases hcase with ⟨hst, _⟩ | ⟨hst, _⟩ <;> rw [hc] at hst <;>
          exact absurd hst (by decide)
      · have hst := h.1
        rw [hc] at hst
        exact absurd hst (by decide)
      · rw [hq2] at h2
        have := h2.length_le
        simp at this
      · rw [hq2] at hl
        simp at hl
  · intro p e hp hfail hne
    have hq' : p <+: es := (List.prefix_append p [e]).trans hp
    have h := hinv p hq'
    have hl := hlen2 p hq'
    rw [run_append] at hne
    cases e with
    | cancel n =>
      exact absurd (by simp [step, cancelStep, hfail]) hne
    | beginProc n =>
      rfl
    | finishOk r n =>
      exfalso
      have h2 : p.filter isExec ++ [TaskEvent.finishOk r n] <+: [e₁, e₂] := by
        have h1 := hp.filter isExec
        rw [hes, filter_exec_exec p (TaskEvent.finishOk r n) rfl] at h1
        exact h1
      rcases hq2 : p.filter isExec with _ | ⟨x, _ | ⟨y, _ | ⟨z, zs⟩⟩⟩ <;>
        rw [hq2] at h
      · rw [hq2] at h2
        simp only [List.nil_append] at h2
        obtain ⟨hx, _⟩ := List.cons_prefix_cons.mp h2
        rw [← hx] at hb
        simp [isBeginProc] at hb
      · have hst := h.1
        rw [hfail] at hst
        exact absurd hst (by decide)
      · rw [hq2] at h2
        have := h2.length_le
        simp at this
      · rw [hq2] at hl
        simp at hl
    | finishErr m n =>
      exact absurd rfl hne
  · have h1 : es.countP isBeginProc =
        (es.filter isExec).countP isBeginProc := by
      rw [List.countP_filter]
      apply List.countP_congr
      intro a _
      cases a <;> rfl
    rw [h1, hes]
    have h2 : isBeginProc e₂ = false := isFinish_not_begin hf
    simp [List.countP_cons, h2, hb]

/-- Witness for C2 amended on a concrete valid trace. -/
theorem task_terminal_integrity_witness :
    (run taskDemo okTrace).result.isSome = true :=
  (task_terminal_integrity taskDemo ⟨rfl, rfl, rfl⟩ okTrace rfl).1
    okTrace (List.prefix_refl okTrace) rfl

end TaskLifecycle

section RegistryTheorems

open voice_manager

/-- C6 counterexample: an upload probing at 0.2 seconds makes
`add_voice` fail with the builtin `ValueError` (message mentioning
too short), not with the `AudioProcessingError` exception kind, which
the codebase defines but never raises; and an `add_voice` call that
fails at the store-write step, after the audio was converted and the
temp file deleted, leaves the converted audio file at its target path
on disk with no rollback. -/
theorem add_voice_rollback_counterexample :
    (voice_manager.add_voice envTooShort vcNew []).1 =
      .error (.valueError ("Invalid audio file: " ++ tooShortMsg))
  ∧ PyError.isAudioProcessing
      (.valueError ("Invalid audio file: " ++ tooShortMsg)) = false
  ∧ (voice_manager.add_voice envTooShort vcNew []).2 = []
  ∧ (voice_manager.add_voice envStoreFail vcNew []).1 =
      .error (.osError "Failed to save voice cache")
  ∧ (voice_manager.add_voice envStoreFail vcNew []).2 = [target_path vcNew] := by
  refine ⟨?_, rfl, ?_, ?_, ?_⟩ <;>
    norm_num [voice_manager.add_voice, validate_audio_file, finishAdd,
      envTooShort, envStoreFail, vcNew, temp_path, target_path, tooShortMsg]

/-- C6 amended: when `add_voice` fails at validation, format
conversion or the copy step, the partially-saved temp audio file is
deleted before the error surfaces and the filesystem is exactly as
before; in particular an upload shorter than 0.5 seconds fails with
`ValueError` whose message carries the too-short text and leaves no
partial file.  Conditioning-data extraction cannot fail (its errors
are swallowed into an absent blob).  But a failure at the final
store-write step surfaces after the temp file was already deleted and
leaves the converted audio at its target path: an orphaned file. -/
theorem add_voice_cleanup (env : AddVoiceEnv) (vc : VoiceCreate)
    (files : List FsPath)
    (hinit : env.initialized = true) (hex : env.voice_exists = false)
    (htmp : env.temp_save_ok = true) (hfresh : temp_path vc ∉ files) :
    ((validate_audio_file env).1 = false →
      voice_manager.add_voice env vc files =
        (.error (.valueError ("Invalid audio file: " ++
          (validate_audio_file env).2.getD "None")), files))
  ∧ ((validate_audio_file env).1 = true → vc.audio_format ≠ .wav →
      env.convert_ok = false →
      voice_manager.add_voice env vc files =
        (.error (.valueError "Failed to convert audio format"), files))
  ∧ ((validate_audio_file env).1 = true → vc.audio_format = .wav →
      env.copy_ok = false →
      voice_manager.add_voice env vc files =
        (.error (.valueError "Failed to save audio file"), files))
  ∧ (∀ info, env.audio_info = some info →
      env.file_size ≤ env.max_file_size →
      info.duration ≤ env.max_audio_duration → info.duration < 1/2 →
      voice_manager.add_voice env vc files =
        (.error (.valueError ("Invalid audio file: " ++ tooShortMsg)), files))
  ∧ ((validate_audio_file env).1 = true →
      (vc.audio_format ≠ .wav → env.convert_ok = true) →
      (vc.audio_format = .wav → env.copy_ok = true) →
      env.store_write_ok = false →
      voice_manager.add_voice env vc files =
        (.error (.osError "Failed to save voice cache"),
         files ++ [target_path vc])) := by
  have herase : (files ++ [temp_path vc]).erase (temp_path vc) = files := by
    rw [List.erase_append_right _ hfresh, List.erase_cons_head,
      List.append_nil]
  have herase2 : (files ++ [temp_path vc, target_path vc]).erase
      (temp_path vc) = files ++ [target_path vc] := by
    rw [List.erase_append_right _ hfresh, List.erase_cons_head]
  rcases hval : validate_audio_file env with ⟨b, m⟩
  have hfail : b = false →
      voice_manager.add_voice env vc files =
        (.error (.valueError ("Invalid audio file: " ++ m.getD "None")),
         files) := by
    intro hb
    subst hb
    simp [voice_manager.add_voice, hinit, hex, htmp, hval, herase]
  refine ⟨?_, ?_, ?_, ?_, ?_⟩
  · intro hv1
    simp only at hv1
    simpa using hfail hv1
  · intro hv1 hfmt hconv
    simp only at hv1
    subst hv1
    simp [voice_manager.add_voice, hinit, hex, htmp, hval, hfmt, hconv,
      herase]
  · intro hv1 hfmt hcopy
    simp only at hv1
    subst hv1
    simp [voice_manager.add_voice, hinit, hex, htmp, hval, hfmt, hcopy,
      herase]
  · intro info hinfo hsize hmax hshort
    have hval4 : validate_audio_file env = (false, some tooShortMsg) := by
      simp only [validate_audio_file, hinfo]
      rw [if_neg (not_lt.mpr hsize), if_neg (not_lt.mpr hmax),
        if_pos hshort]
    rw [hval] at hval4
    injection hval4 with hb hm
    subst hb
    subst hm
    simpa using hfail rfl
  · intro hv1 hcv hcp hsw
    simp only at hv1
    subst hv1
    by_cases hfmt : vc.audio_format = .wav
    · have hcp2 := hcp hfmt
      simp [voice_manager.add_voice, hinit, hex, htmp, hval, hfmt, hcp2,
        finishAdd, hsw, herase2]
    · have hcv2 := hcv hfmt
      simp [voice_manager.add_voice, hinit, hex, htmp, hval, hfmt, hcv2,
        finishAdd, hsw, herase2]

/-- Witness for C6 amended at the concrete too-short upload. -/
theorem add_voice_cleanup_witness :
    voice_manager.add_voice envTooShort vcNew [] =
      (.error (.valueError ("Invalid audio file: " ++ tooShortMsg)), []) :=
  (add_voice_cleanup envTooShort vcNew [] rfl rfl rfl (by simp)).2.2.2.1
    { duration := 1/5, sample_rate := 16000, channels := 1 }
    rfl (by norm_num [envTooShort]) (by norm_num [envTooShort])
    (by norm_num)

end RegistryTheorems

section SynthesisTheorems

open synthesis_engine

/-- Every run of the chunk loop returns the accumulator extended by
the concatenation, in arrival order, of some consumed prefix of the
present chunks, with the chunk counter advanced accordingly. -/
theorem collectLoop_take (mc ms : Nat) (os : List ModelOutput) :
    ∀ (acc : List Int) (cnt : Nat),
      ∃ k, (collectLoop mc ms os acc cnt).1 =
            acc ++ ((os.filterMap id).take k).flatten ∧
          (collectLoop mc ms os acc cnt).2 = cnt + k := by
  induction os with
  | nil =>
    intro acc cnt
    exact ⟨0, by simp [collectLoop]⟩
  | cons o rest ih =>
    intro acc cnt
    cases o with
    | none =>
      obtain ⟨k, h1, h2⟩ := ih acc cnt
      exact ⟨k, by simpa [collectLoop] using h1,
        by simpa [collectLoop] using h2⟩
    | some c =>
      by_cases h1 : mc ≤ cnt + 1
      · refine ⟨1, ?_, ?_⟩ <;> simp [collectLoop, h1]
      · by_cases h2 : ms < (acc ++ c).length
        · have h2a : ms < acc.length + c.length := by simpa using h2
          refine ⟨1, ?_, ?_⟩ <;> simp [collectLoop, h1, h2a]
        · have h2a : ¬(ms < acc.length + c.length) := by simpa using h2
          obtain ⟨k, hk1, hk2⟩ := ih (acc ++ c) (cnt + 1)
          have hstep : collectLoop mc ms (some c :: rest) acc cnt =
              collectLoop mc ms rest (acc ++ c) (cnt + 1) := by
            simp [collectLoop, h1, h2a]
          refine ⟨k + 1, ?_, ?_⟩
          · rw [hstep, hk1]
            simp [List.take_succ_cons, List.flatten_cons,
              List.append_assoc]
          · rw [hstep, hk2]
            omega

/-- When neither safety bound is reached the loop consumes every
present chunk. -/
theorem collectLoop_all (mc ms : Nat) (os : List ModelOutput) :
    ∀ (acc : List Int) (cnt : Nat),
      cnt + (os.filterMap id).length < mc →
      (acc ++ (os.filterMap id).flatten).length ≤ ms →
      (collectLoop mc ms os acc cnt).1 = acc ++ (os.filterMap id).flatten := by
  induction os with
  | nil =>
    intro acc cnt _ _
    simp [collectLoop]
  | cons o rest ih =>
    intro acc cnt hc hs
    cases o with
    | none =>
      have hc2 : cnt + (rest.filterMap id).length < mc := by simpa using hc
      have hs2 : (acc ++ (rest.filterMap id).flatten).length ≤ ms := by
        simpa using hs
      simpa [collectLoop] using ih acc cnt hc2 hs2
    | some c =>
      have h1 : ¬(mc ≤ cnt + 1) := by
        simp at hc
        omega
      have h2 : ¬(ms < acc.length + c.length) := by
        simp [List.flatten_cons] at hs
        omega
      have hc2 : cnt + 1 + (rest.filterMap id).length < mc := by
        simp at hc
        omega
      have hs2 : ((acc ++ c) ++ (rest.filterMap id).flatten).length ≤ ms := by
        simp [List.flatten_cons] at hs ⊢
        omega
      have hstep : collectLoop mc ms (some c :: rest) acc cnt =
          collectLoop mc ms rest (acc ++ c) (cnt + 1) := by
        simp [collectLoop, h1, h2]
      rw [hstep, ih (acc ++ c) (cnt + 1) hc2 hs2]
      simp [List.flatten_cons, List.append_assoc]

/-- C7 counterexample: a single model output whose chunk holds zero
samples makes the chunk count 1 - the model did produce a chunk - yet
the adapter still fails with the no-audio `SynthesisError`, so the
failure condition is emptiness of the collected sample data, not a
zero chunk count. -/
theorem no_audio_error_counterexample :
    (collectLoop 200 100 [some []] [] 0).2 = 1
  ∧ synthesize_cross_lingual_cached 200 100 [some []] "outputs/x.wav" =
      .error (.synthesisError "No audio generated") :=
  ⟨rfl, rfl⟩

/-- C7 amended: the adapter fails with the no-audio `SynthesisError`
exactly when the collected sample data is empty (in particular when
zero chunks were produced); the collected data is always the
arrival-order concatenation of a consumed prefix of the chunks; when
neither the chunk-count bound nor the sample-count bound is hit it is
all of them; and whenever the collected data is nonempty - also when a
bound stopped consumption early - it is kept and written to the output
path rather than discarded. -/
theorem synthesis_keeps_collected (mc ms : Nat) (os : List ModelOutput)
    (path : String) :
    (∃ k, (collectLoop mc ms os [] 0).1 =
          ((os.filterMap id).take k).flatten ∧
        (collectLoop mc ms os [] 0).2 = k)
  ∧ ((os.filterMap id).length < mc →
      ((os.filterMap id).flatten).length ≤ ms →
      (collectLoop mc ms os [] 0).1 = (os.filterMap id).flatten)
  ∧ (synthesize_cross_lingual_cached mc ms os path =
        .error (.synthesisError "No audio generated") ↔
      (collectLoop mc ms os [] 0).1 = [])
  ∧ ((collectLoop mc ms os [] 0).1 ≠ [] →
      synthesize_cross_lingual_cached mc ms os path =
        .ok (path, (collectLoop mc ms os [] 0).1)) := by
  refine ⟨?_, ?_, ?_, ?_⟩
  · obtain ⟨k, h1, h2⟩ := collectLoop_take mc ms os [] 0
    exact ⟨k, by simpa using h1, by simpa using h2⟩
  · intro hc hs
    have h := collectLoop_all mc ms os [] 0 (by omega) (by simpa using hs)
    simpa using h
  · rcases hdata : (collectLoop mc ms os [] 0).1 with _ | ⟨a, as⟩
    · simp [synthesize_cross_lingual_cached, hdata]
    · simp [synthesize_cross_lingual_cached, hdata]
  · intro hne
    rcases hdata : (collectLoop mc ms os [] 0).1 with _ | ⟨a, as⟩
    · exact absurd hdata hne
    · simp [synthesize_cross_lingual_cached, hdata]

/-- Witness for C7 amended: with a chunk bound of 1 the loop stops
early after the first of two chunks, and the audio already produced is
kept and written rather than discarded. -/
theorem synthesis_keeps_collected_witness :
    synthesize_cross_lingual_cached 1 1000 [some [7], some [8]]
        "outputs/y.wav" =
      .ok ("outputs/y.wav", (collectLoop 1 1000 [some [7], some [8]] [] 0).1) :=
  (synthesis_keeps_collected 1 1000 [some [7], some [8]]
    "outputs/y.wav").2.2.2 (by decide)

end SynthesisTheorems

end CosyVoice
